import Mathlib

/-!
A shallow embedding of the Venus wiki-polling core (`fandom/wiki.py`).

Python dicts are modelled as ordered association lists with
insertion-order-preserving overwrite (`dictSet`), matching CPython dict
semantics for string keys.  Python exceptions become an error type
(`PyErr`) and fallible code returns `Except` or pairs the post-state with
an optional error.  Network I/O is modelled by an oracle `net : Call → JVal`
mapping each issued request to its decoded JSON body; each fetch function
returns the trace of requests it issued together with its result value.
`datetime.isoformat` for naive datetimes is embedded as `PyDatetime.isoformat`.
-/

namespace Venus

/-- Python exceptions that the embedded code can raise. -/
inductive PyErr
  | keyError
  | typeError
  | attributeError
  | runtimeError (msg : String)
  | invalidTransportType
deriving DecidableEq, Repr

/-- A Python dict with string keys and string values, as an ordered
association list. -/
abbrev Params := List (String × String)

/-- Dict lookup: `d[k]` as an `Option`. -/
def dictGet : Params → String → Option String
  | [], _ => none
  | (k', v) :: d, k => if k' = k then some v else dictGet d k

/-- Replace the value at an existing key, keeping its position. -/
def listSet : Params → String → String → Params
  | [], _, _ => []
  | (k', v') :: d, k, v =>
      if k' = k then (k, v) :: listSet d k v else (k', v') :: listSet d k v

/-- Dict assignment `d[k] = v`: overwrite in place when the key exists,
append at the end otherwise (CPython insertion-order semantics). -/
def dictSet (d : Params) (k v : String) : Params :=
  if (dictGet d k).isSome then listSet d k v else d ++ [(k, v)]

/-- A naive `datetime.datetime` value. -/
structure PyDatetime where
  year : Nat
  month : Nat
  day : Nat
  hour : Nat
  minute : Nat
  second : Nat
  microsecond : Nat
deriving DecidableEq, Repr

/-- Zero-pad a number on the left to the given width. -/
def padNum (width n : Nat) : String :=
  let s := toString n
  ⟨List.replicate (width - s.length) '0' ++ s.data⟩

/-- `datetime.isoformat()` for a naive datetime: seconds always printed,
the six-digit microsecond field printed only when it is nonzero. -/
def PyDatetime.isoformat (t : PyDatetime) : String :=
  padNum 4 t.year ++ "-" ++ padNum 2 t.month ++ "-" ++ padNum 2 t.day ++ "T" ++
    padNum 2 t.hour ++ ":" ++ padNum 2 t.minute ++ ":" ++ padNum 2 t.second ++
    (if t.microsecond = 0 then "" else "." ++ padNum 6 t.microsecond)

/-- Timestamp encoding used by `fetch_rc`: `t.isoformat() + "Z"`. -/
def rcTimestamp (t : PyDatetime) : String :=
  t.isoformat ++ "Z"

/-- Timestamp encoding used by `fetch_posts`: `t.isoformat()[:-3] + "Z"`
(the source comments that the posts API rejects six-digit fractions). -/
def postsTimestamp (t : PyDatetime) : String :=
  t.isoformat.dropRight 3 ++ "Z"

/-- `"|".join(xs)`. -/
def pipeJoin : List String → String
  | [] => ""
  | [x] => x
  | x :: xs => x ++ "|" ++ pipeJoin xs

/-- `if limit: params["rclimit"] = limit; params["lelimit"] = limit`
(a zero limit is falsy in Python and skips the assignment). -/
def rcLimitStep (limit : Option Nat) (d : Params) : Params :=
  match limit with
  | some n => if n ≠ 0 then dictSet (dictSet d "rclimit" (toString n)) "lelimit" (toString n) else d
  | none => d

/-- `if xs: params[key] = "|".join(xs)` (an empty list is falsy). -/
def rcJoinStep (key : String) (xs : Option (List String)) (d : Params) : Params :=
  match xs with
  | some l => if l ≠ [] then dictSet d key (pipeJoin l) else d
  | none => d

/-- `if after: params["rcend"] = after.isoformat() + "Z"; params["leend"] = ...`. -/
def rcAfterStep (after : Option PyDatetime) (d : Params) : Params :=
  match after with
  | some t => dictSet (dictSet d "rcend" (rcTimestamp t)) "leend" (rcTimestamp t)
  | none => d

/-- `if before: params["rcstart"] = before.isoformat() + "Z"; params["lestart"] = ...`. -/
def rcBeforeStep (before : Option PyDatetime) (d : Params) : Params :=
  match before with
  | some t => dictSet (dictSet d "rcstart" (rcTimestamp t)) "lestart" (rcTimestamp t)
  | none => d

/-- `if namespaces: params["namespaces"] = "|".join(str(ns) for ns in namespaces)`. -/
def rcNamespacesStep (namespaces : Option (List Int)) (d : Params) : Params :=
  match namespaces with
  | some l => if l ≠ [] then dictSet d "namespaces" (pipeJoin (l.map toString)) else d
  | none => d

/-- Decoded JSON values returned by the remote APIs. -/
inductive JVal
  | str (s : String)
  | num (n : Int)
  | arr (xs : List JVal)
  | obj (fields : List (String × JVal))

/-- Lookup in a JSON object's field list. -/
def jLookup : List (String × JVal) → String → Option JVal
  | [], _ => none
  | (k', v) :: fs, k => if k' = k then some v else jLookup fs k

/-- Python subscript `j[k]` on a decoded JSON value: `KeyError` on a
missing key, `TypeError` when the value is not a dict. -/
def jSub (j : JVal) (k : String) : Except PyErr JVal :=
  match j with
  | .obj fs =>
      match jLookup fs k with
      | some v => .ok v
      | none => .error .keyError
  | _ => .error .typeError

/-- Replace the value of an existing field, keeping its position. -/
def jSetList : List (String × JVal) → String → JVal → List (String × JVal)
  | [], _, _ => []
  | (k', v') :: fs, k, v =>
      if k' = k then (k, v) :: jSetList fs k v else (k', v') :: jSetList fs k v

/-- In-place update of an object's field (used to model mutating the
nested post list that `extend` modifies). -/
def jSetField (j : JVal) (k : String) (v : JVal) : JVal :=
  match j with
  | .obj fs => .obj (jSetList fs k v)
  | _ => j

/-- One HTTP GET issued by the client, identified by the endpoint family
and its query parameters (aiohttp renders numeric parameter values as
decimal strings, which is how they appear here). -/
inductive Call
  | api (wikiUrl : String) (params : Params)
  | service (service wikiId path : String) (params : Params)
  | nirvana (wikiUrl : String) (params : Params)

/-- The response oracle: the decoded JSON body the network returns for a
given request. -/
abbrev Net := Call → JVal

/-- `Wiki.api`: GET to `{url}/api.php`; returns the issued call and the
decoded body. -/
def api (net : Net) (wikiUrl : String) (params : Params) : List Call × JVal :=
  ([Call.api wikiUrl params], net (Call.api wikiUrl params))

/-- `Wiki.services`: GET to `https://services.fandom.com/{service}/{id}/{path}`. -/
def services (net : Net) (wikiId : String) (service path : String) (params : Params) :
    List Call × JVal :=
  ([Call.service service wikiId path params], net (Call.service service wikiId path params))

/-- `Wiki.query_nirvana`: raises `RuntimeError` when the wiki url is
empty or unset (`if not self.url`), otherwise forces `format=json` and
GETs `{url}/wikia.php`. -/
def query_nirvana (net : Net) (wikiUrl : String) (params : Params) :
    Except PyErr (List Call × JVal) :=
  if wikiUrl = "" then .error (.runtimeError "Wiki url is required to do this")
  else
    let ps := dictSet params "format" "json"
    .ok ([Call.nirvana wikiUrl ps], net (Call.nirvana wikiUrl ps))

/-- The query parameters built by `fetch_rc`, in the source's order. -/
def fetch_rc_params (limit : Option Nat) (types show_ rcprops leprops : Option (List String))
    (before after : Option PyDatetime) (namespaces : Option (List Int)) : Params :=
  rcNamespacesStep namespaces
    (rcBeforeStep before
      (rcAfterStep after
        (rcJoinStep "leprop" leprops
          (rcJoinStep "rcprop" rcprops
            (rcJoinStep "rcshow" show_
              (rcJoinStep "rctype" types
                (rcLimitStep limit
                  [("action", "query"), ("list", "recentchanges|logevents"),
                   ("format", "json")])))))))

/-- `Wiki.fetch_rc`: builds the combined recentchanges + logevents query
and performs one `api` request with it. -/
def fetch_rc (net : Net) (wikiUrl : String)
    (limit : Option Nat) (types show_ rcprops leprops : Option (List String))
    (before after : Option PyDatetime) (namespaces : Option (List Int)) :
    List Call × JVal :=
  api net wikiUrl (fetch_rc_params limit types show_ rcprops leprops before after namespaces)

/-- `if limit: params["limit"] = limit` in `fetch_posts` (zero is falsy). -/
def postsLimitStep (limit : Option Nat) (d : Params) : Params :=
  match limit with
  | some n => if n ≠ 0 then dictSet d "limit" (toString n) else d
  | none => d

/-- `if before: params["until"] = before.isoformat()[:-3] + "Z"`. -/
def postsUntilStep (before : Option PyDatetime) (d : Params) : Params :=
  match before with
  | some t => dictSet d "until" (postsTimestamp t)
  | none => d

/-- `if after: params["since"] = after.isoformat()[:-3] + "Z"`. -/
def postsSinceStep (after : Option PyDatetime) (d : Params) : Params :=
  match after with
  | some t => dictSet d "since" (postsTimestamp t)
  | none => d

/-- The shared parameter dict built at the top of `fetch_posts`, in the
source's order. -/
def posts_params (limit : Option Nat) (before after : Option PyDatetime) : Params :=
  postsSinceStep after (postsUntilStep before (postsLimitStep limit []))

/-- `Wiki.fetch_posts`.  Branches on `len(containers)`:
* not 1 and not 2: one `query_nirvana` call with
  `controller=DiscussionPost`, `method=getPosts` and the shared params;
* exactly 1: the source executes `params["containerType"] = params[0]`,
  and since `params` is a dict with string keys the subscript `params[0]`
  raises `KeyError` before any request is issued;
* exactly 2: two concurrent `services("discussion", ..., "posts")` calls,
  one per container with that container as `containerType`; then
  `data[0]["_embedded"]["doc:posts"].extend(data[1]["_embedded"]["doc:posts"])`
  and `return data`, i.e. the gathered two-element list is returned with
  the first response's post list extended in place. -/
def fetch_posts (net : Net) (wikiUrl wikiId : String)
    (limit : Option Nat) (containers : List String)
    (before after : Option PyDatetime) : Except PyErr (List Call × JVal) :=
  let params := posts_params limit before after
  if containers.length ≠ 2 then
    if containers.length = 1 then
      .error .keyError
    else
      query_nirvana net wikiUrl
        (("controller", "DiscussionPost") :: ("method", "getPosts") :: params)
  else
    match containers with
    | [c0, c1] =>
        let (tr0, d0) := services net wikiId "discussion" "posts" (("containerType", c0) :: params)
        let (tr1, d1) := services net wikiId "discussion" "posts" (("containerType", c1) :: params)
        match jSub d0 "_embedded" with
        | .error e => .error e
        | .ok emb0 =>
            match jSub emb0 "doc:posts" with
            | .error e => .error e
            | .ok p0 =>
                match p0 with
                | .arr xs =>
                    (match jSub d1 "_embedded" with
                     | .error e => .error e
                     | .ok emb1 =>
                         match jSub emb1 "doc:posts" with
                         | .error e => .error e
                         | .ok p1 =>
                             match p1 with
                             | .arr ys =>
                                 .ok (tr0 ++ tr1,
                                   .arr [jSetField d0 "_embedded"
                                           (jSetField emb0 "doc:posts" (.arr (xs ++ ys))),
                                         d1])
                             | _ => .error .typeError)
                | _ => .error .attributeError
    | _ => .error .typeError

/-- A registered transport.  Modelled from the spec: `transports/discord.py`
is not under `src/`; per the spec a discord transport is constructed from
its webhook url (plus non-owning wiki and session references, which a
purely functional embedding cannot hold structurally) and construction
does not fail. -/
inductive Transport
  | discord (url : String)
deriving DecidableEq, Repr

/-- `Wiki.add_transport`: appends a discord transport for type `"discord"`,
raises `InvalidTransportType` for every other type string.  The result
pairs the post-call transports list with the raised error, if any. -/
def add_transport (transports : List Transport) (type url : String) :
    List Transport × Option PyErr :=
  if type = "discord" then (transports ++ [.discord url], none)
  else (transports, some .invalidTransportType)

/-- Python `s.replace(a, b)` for single characters. -/
def pyReplaceChar (s : String) (a b : Char) : String :=
  ⟨s.data.map fun c => if c = a then b else c⟩

/-- Characters `urllib.parse.quote` never percent-encodes: ASCII
letters, digits, and `_ . - ~`. -/
def alwaysSafe (c : Char) : Bool :=
  c.isAlphanum || c = '_' || c = '.' || c = '-' || c = '~'

/-- The sixteen uppercase hexadecimal digit characters. -/
def hexDigits : List Char :=
  ['0', '1', '2', '3', '4', '5', '6', '7', '8', '9', 'A', 'B', 'C', 'D', 'E', 'F']

/-- The uppercase hexadecimal digit for `n % 16`. -/
def hexDigit (n : Nat) : Char :=
  hexDigits.getD (n % 16) '0'

/-- `%XX` percent-encoding of one byte, as characters. -/
def hexByteChars (b : Nat) : List Char :=
  ['%', hexDigit (b / 16), hexDigit (b % 16)]

/-- UTF-8 encoding of a Unicode code point, as byte values. -/
def utf8Bytes (n : Nat) : List Nat :=
  if n < 0x80 then [n]
  else if n < 0x800 then [0xC0 + n / 64, 0x80 + n % 64]
  else if n < 0x10000 then [0xE0 + n / 4096, 0x80 + n / 64 % 64, 0x80 + n % 64]
  else [0xF0 + n / 262144, 0x80 + n / 4096 % 64, 0x80 + n / 64 % 64, 0x80 + n % 64]

/-- How `urllib.parse.quote_plus` renders one character: a space becomes
`+`, an always-safe character is kept, anything else is the
percent-encoding of its UTF-8 bytes. -/
def quoteCharChars (c : Char) : List Char :=
  if c = ' ' then ['+']
  else if alwaysSafe c then [c]
  else ((utf8Bytes c.toNat).map hexByteChars).flatten

/-- `urllib.parse.quote_plus` with the empty safe set, as used by
`urlencode`. -/
def quote_plus (s : String) : String :=
  ⟨(s.data.map quoteCharChars).flatten⟩

/-- One `key=value` component of `urlencode`. -/
def urlencodePair (p : String × String) : String :=
  quote_plus p.1 ++ "=" ++ quote_plus p.2

/-- `"&".join(pieces)`. -/
def ampJoin : List String → String
  | [] => ""
  | [x] => x
  | x :: xs => x ++ "&" ++ ampJoin xs

/-- `urllib.parse.urlencode` over the insertion-ordered params dict. -/
def urlencode (ps : Params) : String :=
  ampJoin (ps.map urlencodePair)

/-- `Wiki.url_to`: spaces become underscores in the page (and in the
namespace when one is given), a truthy namespace is prepended with a
colon, and a non-empty params dict is appended as `?` plus its encoded
query string.  `namespace = none` models Python's default `None`; note
that `if namespace:` treats an empty namespace string like `None`. -/
def url_to (wikiUrl page : String) (nspace : Option String) (params : Params) : String :=
  let page := pyReplaceChar page ' ' '_'
  let url :=
    match nspace with
    | some ns =>
        if ns = "" then wikiUrl ++ "/wiki/" ++ page
        else wikiUrl ++ "/wiki/" ++ pyReplaceChar ns ' ' '_' ++ ":" ++ page
    | none => wikiUrl ++ "/wiki/" ++ page
  if params.isEmpty then url else url ++ "?" ++ urlencode params

/-- A string with no literal space character. -/
def noSpace (s : String) : Prop :=
  ' ' ∉ s.data

instance (s : String) : Decidable (noSpace s) := by
  unfold noSpace
  infer_instance

/-- The parameter dict of the single unfiltered nirvana call that
`fetch_posts` issues outside the one- and two-container branches. -/
def nirvanaPostsParams (limit : Option Nat) (before after : Option PyDatetime) : Params :=
  dictSet (("controller", "DiscussionPost") :: ("method", "getPosts") ::
    posts_params limit before after) "format" "json"

/-- A response oracle answering every request with an empty object. -/
def trivialNet : Net := fun _ => JVal.obj []

/-- A sample instant with nonzero microseconds. -/
def dtMicro : PyDatetime := ⟨2023, 1, 1, 0, 0, 0, 123456⟩

/-- A sample FORUM-container posts response. -/
def respForum : JVal :=
  .obj [("id", .str "A"), ("_embedded", .obj [("doc:posts", .arr [.str "f1", .str "f2"])])]

/-- A sample WALL-container posts response. -/
def respWall : JVal :=
  .obj [("_embedded", .obj [("doc:posts", .arr [.str "w1"])])]

/-- A response oracle serving `respForum` to FORUM-filtered service
requests and `respWall` to everything else. -/
def twoContainerNet : Net := fun c =>
  match c with
  | .service _ _ _ ps =>
      if dictGet ps "containerType" = some "FORUM" then respForum else respWall
  | _ => .obj []

/-- `respForum` with `respWall`'s post list appended into its post list. -/
def mergedForum : JVal :=
  .obj [("id", .str "A"),
        ("_embedded", .obj [("doc:posts", .arr [.str "f1", .str "f2", .str "w1"])])]

theorem dictGet_listSet_self (d : Params) (k v : String) :
    dictGet (listSet d k v) k = if (dictGet d k).isSome then some v else none := by
  induction d with
  | nil => simp [listSet, dictGet]
  | cons p d ih =>
      by_cases h : p.1 = k
      · simp [listSet, dictGet, h]
      · simp [listSet, dictGet, h, ih]

theorem dictGet_listSet_ne (d : Params) (k k' v : String) (h : k' ≠ k) :
    dictGet (listSet d k' v) k = dictGet d k := by
  induction d with
  | nil => simp [listSet]
  | cons p d ih =>
      by_cases hp : p.1 = k'
      · simp [listSet, dictGet, hp, h, ih]
      · by_cases hk : p.1 = k
        · simp [listSet, dictGet, hp, hk, Ne.symm h]
        · simp [listSet, dictGet, hp, hk, ih]

theorem dictGet_append (d e : Params) (k : String) :
    dictGet (d ++ e) k =
      match dictGet d k with
      | some v => some v
      | none => dictGet e k := by
  induction d with
  | nil => simp [dictGet]
  | cons p d ih =>
      by_cases h : p.1 = k
      · simp [dictGet, h]
      · simp [dictGet, h, ih]

theorem dictGet_dictSet_self (d : Params) (k v : String) :
    dictGet (dictSet d k v) k = some v := by
  unfold dictSet
  by_cases h : (dictGet d k).isSome
  · simp [h, dictGet_listSet_self]
  · simp [h, dictGet_append]
    cases hv : dictGet d k with
    | none => simp [dictGet]
    | some w => simp [hv] at h

theorem dictGet_dictSet_ne (d : Params) (k k' v : String) (h : k' ≠ k) :
    dictGet (dictSet d k' v) k = dictGet d k := by
  unfold dictSet
  by_cases hs : (dictGet d k').isSome
  · simp [hs, dictGet_listSet_ne d k k' v h]
  · simp [hs, dictGet_append]
    cases hv : dictGet d k with
    | none => simp [dictGet, h]
    | some w => simp

theorem dictGet_cons_self (k v : String) (d : Params) : dictGet ((k, v) :: d) k = some v := by
  simp [dictGet]

theorem dictGet_cons_ne (k k' v : String) (d : Params) (h : k' ≠ k) :
    dictGet ((k', v) :: d) k = dictGet d k := by
  simp [dictGet, h]

theorem dictGet_rcLimitStep_ne (limit : Option Nat) (d : Params) (k : String)
    (h1 : k ≠ "rclimit") (h2 : k ≠ "lelimit") :
    dictGet (rcLimitStep limit d) k = dictGet d k := by
  cases limit with
  | none => rfl
  | some n =>
      by_cases hn : n = 0 <;>
        simp [rcLimitStep, hn, dictGet_dictSet_ne _ _ _ _ (Ne.symm h2),
          dictGet_dictSet_ne _ _ _ _ (Ne.symm h1)]

theorem dictGet_rcJoinStep_ne (key : String) (xs : Option (List String)) (d : Params)
    (k : String) (h : k ≠ key) :
    dictGet (rcJoinStep key xs d) k = dictGet d k := by
  cases xs with
  | none => rfl
  | some l =>
      by_cases hl : l = [] <;>
        simp [rcJoinStep, hl, dictGet_dictSet_ne _ _ _ _ (Ne.symm h)]

theorem dictGet_rcAfterStep_ne (after : Option PyDatetime) (d : Params) (k : String)
    (h1 : k ≠ "rcend") (h2 : k ≠ "leend") :
    dictGet (rcAfterStep after d) k = dictGet d k := by
  cases after with
  | none => rfl
  | some t =>
      simp [rcAfterStep, dictGet_dictSet_ne _ _ _ _ (Ne.symm h2),
        dictGet_dictSet_ne _ _ _ _ (Ne.symm h1)]

theorem dictGet_rcBeforeStep_ne (before : Option PyDatetime) (d : Params) (k : String)
    (h1 : k ≠ "rcstart") (h2 : k ≠ "lestart") :
    dictGet (rcBeforeStep before d) k = dictGet d k := by
  cases before with
  | none => rfl
  | some t =>
      simp [rcBeforeStep, dictGet_dictSet_ne _ _ _ _ (Ne.symm h2),
        dictGet_dictSet_ne _ _ _ _ (Ne.symm h1)]

theorem dictGet_rcNamespacesStep_ne (ns : Option (List Int)) (d : Params) (k : String)
    (h : k ≠ "namespaces") :
    dictGet (rcNamespacesStep ns d) k = dictGet d k := by
  cases ns with
  | none => rfl
  | some l =>
      by_cases hl : l = [] <;>
        simp [rcNamespacesStep, hl, dictGet_dictSet_ne _ _ _ _ (Ne.symm h)]

theorem dictGet_rcBeforeStep_rcstart (t : PyDatetime) (d : Params) :
    dictGet (rcBeforeStep (some t) d) "rcstart" = some (rcTimestamp t) := by
  simp [rcBeforeStep, dictGet_dictSet_ne _ _ _ _ (by decide : "lestart" ≠ "rcstart"),
    dictGet_dictSet_self]

theorem dictGet_rcBeforeStep_lestart (t : PyDatetime) (d : Params) :
    dictGet (rcBeforeStep (some t) d) "lestart" = some (rcTimestamp t) := by
  simp [rcBeforeStep, dictGet_dictSet_self]

theorem dictGet_rcAfterStep_rcend (t : PyDatetime) (d : Params) :
    dictGet (rcAfterStep (some t) d) "rcend" = some (rcTimestamp t) := by
  simp [rcAfterStep, dictGet_dictSet_ne _ _ _ _ (by decide : "leend" ≠ "rcend"),
    dictGet_dictSet_self]

theorem dictGet_rcAfterStep_leend (t : PyDatetime) (d : Params) :
    dictGet (rcAfterStep (some t) d) "leend" = some (rcTimestamp t) := by
  simp [rcAfterStep, dictGet_dictSet_self]

theorem dictGet_postsLimitStep_ne (limit : Option Nat) (d : Params) (k : String)
    (h : k ≠ "limit") :
    dictGet (postsLimitStep limit d) k = dictGet d k := by
  cases limit with
  | none => rfl
  | some n =>
      by_cases hn : n = 0 <;>
        simp [postsLimitStep, hn, dictGet_dictSet_ne _ _ _ _ (Ne.symm h)]

theorem dictGet_postsUntilStep_ne (before : Option PyDatetime) (d : Params) (k : String)
    (h : k ≠ "until") :
    dictGet (postsUntilStep before d) k = dictGet d k := by
  cases before with
  | none => rfl
  | some t => simp [postsUntilStep, dictGet_dictSet_ne _ _ _ _ (Ne.symm h)]

theorem dictGet_postsSinceStep_ne (after : Option PyDatetime) (d : Params) (k : String)
    (h : k ≠ "since") :
    dictGet (postsSinceStep after d) k = dictGet d k := by
  cases after with
  | none => rfl
  | some t => simp [postsSinceStep, dictGet_dictSet_ne _ _ _ _ (Ne.symm h)]

theorem dictGet_posts_params_ne (limit : Option Nat) (before after : Option PyDatetime)
    (k : String) (h1 : k ≠ "limit") (h2 : k ≠ "until") (h3 : k ≠ "since") :
    dictGet (posts_params limit before after) k = none := by
  simp [posts_params, dictGet_postsSinceStep_ne _ _ _ h3,
    dictGet_postsUntilStep_ne _ _ _ h2, dictGet_postsLimitStep_ne _ _ _ h1, dictGet]

theorem string_data_append (s t : String) : (s ++ t).data = s.data ++ t.data := by
  cases s; cases t; rfl

theorem string_append_empty_right (s : String) : s ++ "" = s := by
  cases s with
  | mk l => show String.mk (l ++ []) = String.mk l; simp

theorem noSpace_append (s t : String) (hs : noSpace s) (ht : noSpace t) :
    noSpace (s ++ t) := by
  unfold noSpace at *
  rw [string_data_append]
  simp only [List.mem_append]
  rintro (h | h)
  · exact hs h
  · exact ht h

theorem hexDigit_ne_space (n : Nat) : hexDigit n ≠ ' ' := by
  have hb : ∀ m, m < 16 → hexDigits.getD m '0' ≠ ' ' := by decide
  exact hb (n % 16) (Nat.mod_lt _ (by norm_num))

theorem space_not_mem_quoteCharChars (c : Char) : ' ' ∉ quoteCharChars c := by
  unfold quoteCharChars
  by_cases hsp : c = ' '
  · simp [hsp]
  · rw [if_neg hsp]
    by_cases hsafe : alwaysSafe c
    · simp [hsafe]
      exact fun h => hsp h.symm
    · rw [if_neg hsafe]
      intro hmem
      rw [List.mem_flatten] at hmem
      obtain ⟨l, hl, hspl⟩ := hmem
      rw [List.mem_map] at hl
      obtain ⟨b, _, rfl⟩ := hl
      simp only [hexByteChars, List.mem_cons, List.not_mem_nil, or_false] at hspl
      rcases hspl with h | h | h
      · exact absurd h (by decide)
      · exact hexDigit_ne_space _ h.symm
      · exact hexDigit_ne_space _ h.symm

theorem noSpace_quote_plus (s : String) : noSpace (quote_plus s) := by
  unfold noSpace quote_plus
  intro hmem
  rw [List.mem_flatten] at hmem
  obtain ⟨l, hl, hspl⟩ := hmem
  rw [List.mem_map] at hl
  obtain ⟨c, _, rfl⟩ := hl
  exact space_not_mem_quoteCharChars c hspl

theorem noSpace_urlencodePair (p : String × String) : noSpace (urlencodePair p) := by
  unfold urlencodePair
  exact noSpace_append _ _ (noSpace_append _ _ (noSpace_quote_plus _) (by decide))
    (noSpace_quote_plus _)

theorem noSpace_ampJoin (l : List String) (h : ∀ s ∈ l, noSpace s) :
    noSpace (ampJoin l) := by
  induction l with
  | nil => simp [ampJoin, noSpace]
  | cons x xs ih =>
      cases xs with
      | nil => exact h x (by simp)
      | cons y ys =>
          show noSpace (x ++ "&" ++ ampJoin (y :: ys))
          exact noSpace_append _ _
            (noSpace_append _ _ (h x (by simp)) (by decide))
            (ih fun s hs => h s (by simp [hs]))

theorem noSpace_urlencode (ps : Params) : noSpace (urlencode ps) := by
  unfold urlencode
  apply noSpace_ampJoin
  intro s hs
  rw [List.mem_map] at hs
  obtain ⟨p, _, rfl⟩ := hs
  exact noSpace_urlencodePair p

theorem noSpace_pyReplaceChar (s : String) : noSpace (pyReplaceChar s ' ' '_') := by
  unfold noSpace pyReplaceChar
  intro hmem
  rw [List.mem_map] at hmem
  obtain ⟨c, _, hc⟩ := hmem
  by_cases h : c = ' '
  · simp [h] at hc
  · simp [h] at hc

/-- Claim C7: for every transport type string other than the recognized
kind "discord", `add_transport` fails with `InvalidTransportType` at
registration time (registering nothing), while type "discord" registers
its transport without error; the check lives entirely in registration,
not in any deliver path. -/
theorem add_transport_type_check (transports : List Transport) (type url : String) :
    (type ≠ "discord" →
      add_transport transports type url = (transports, some PyErr.invalidTransportType)) ∧
    (type = "discord" →
      add_transport transports type url = (transports ++ [Transport.discord url], none)) := by
  constructor
  · intro h
    simp [add_transport, h]
  · intro h
    simp [add_transport, h]

theorem add_transport_type_check_witness :
    add_transport [] "webhook" "https://example.com/hook" =
      ([], some PyErr.invalidTransportType) ∧
    add_transport [] "discord" "https://example.com/hook" =
      ([Transport.discord "https://example.com/hook"], none) :=
  ⟨(add_transport_type_check [] "webhook" "https://example.com/hook").1 (by decide),
   (add_transport_type_check [] "discord" "https://example.com/hook").2 rfl⟩

/-- Claim C10: whenever `add_transport` raises, the transports list after
the call is exactly the transports list before it: the raising branch
contains no mutation. -/
theorem add_transport_failure_preserves_transports (transports : List Transport)
    (type url : String) (h : (add_transport transports type url).2.isSome) :
    (add_transport transports type url).1 = transports := by
  by_cases ht : type = "discord"
  · simp [add_transport, ht] at h
  · simp [add_transport, ht]

theorem add_transport_failure_preserves_transports_witness :
    (add_transport [Transport.discord "https://a.example"] "telegram" "https://b.example").1 =
      [Transport.discord "https://a.example"] :=
  add_transport_failure_preserves_transports [Transport.discord "https://a.example"]
    "telegram" "https://b.example" (by decide)

/-- Claim C6: `query_nirvana` fails exactly when the wiki's base url is
empty or unset (the error the code raises is the built-in RuntimeError,
which the spec's error taxonomy files under its configuration-error
bucket); with a url present, the one issued request carries
`format=json` no matter what format value the caller supplied. -/
theorem query_nirvana_url_check_and_json (net : Net) (wikiUrl : String) (params : Params) :
    (wikiUrl = "" →
      query_nirvana net wikiUrl params =
        .error (PyErr.runtimeError "Wiki url is required to do this")) ∧
    (wikiUrl ≠ "" →
      query_nirvana net wikiUrl params =
        .ok ([Call.nirvana wikiUrl (dictSet params "format" "json")],
             net (Call.nirvana wikiUrl (dictSet params "format" "json"))) ∧
      dictGet (dictSet params "format" "json") "format" = some "json") := by
  constructor
  · intro h
    simp [query_nirvana, h]
  · intro h
    exact ⟨by simp [query_nirvana, h], dictGet_dictSet_self _ _ _⟩

theorem query_nirvana_url_check_and_json_witness :
    query_nirvana trivialNet "" [("format", "xml")] =
      .error (PyErr.runtimeError "Wiki url is required to do this") ∧
    dictGet (dictSet [("format", "xml")] "format" "json") "format" = some "json" :=
  ⟨(query_nirvana_url_check_and_json trivialNet "" [("format", "xml")]).1 rfl,
   ((query_nirvana_url_check_and_json trivialNet "https://w.example" [("format", "xml")]).2
     (by decide)).2⟩

/-- Claim C5: in `fetch_rc`, a supplied before timestamp is sent as both
`rcstart` and `lestart`, and a supplied after timestamp as both `rcend`
and `leend`, each encoded as the full `isoformat()` string with a
literal trailing Z. -/
theorem fetch_rc_time_bounds (limit : Option Nat)
    (types show_ rcprops leprops : Option (List String))
    (before after : Option PyDatetime) (namespaces : Option (List Int))
    (t u : PyDatetime) :
    (before = some t →
      dictGet (fetch_rc_params limit types show_ rcprops leprops before after namespaces)
          "rcstart" = some (PyDatetime.isoformat t ++ "Z") ∧
      dictGet (fetch_rc_params limit types show_ rcprops leprops before after namespaces)
          "lestart" = some (PyDatetime.isoformat t ++ "Z")) ∧
    (after = some u →
      dictGet (fetch_rc_params limit types show_ rcprops leprops before after namespaces)
          "rcend" = some (PyDatetime.isoformat u ++ "Z") ∧
      dictGet (fetch_rc_params limit types show_ rcprops leprops before after namespaces)
          "leend" = some (PyDatetime.isoformat u ++ "Z")) := by
  constructor
  · rintro rfl
    constructor
    · simp only [fetch_rc_params]
      rw [dictGet_rcNamespacesStep_ne _ _ _ (by decide), dictGet_rcBeforeStep_rcstart]
      rfl
    · simp only [fetch_rc_params]
      rw [dictGet_rcNamespacesStep_ne _ _ _ (by decide), dictGet_rcBeforeStep_lestart]
      rfl
  · rintro rfl
    constructor
    · simp only [fetch_rc_params]
      rw [dictGet_rcNamespacesStep_ne _ _ _ (by decide),
        dictGet_rcBeforeStep_ne _ _ _ (by decide) (by decide), dictGet_rcAfterStep_rcend]
      rfl
    · simp only [fetch_rc_params]
      rw [dictGet_rcNamespacesStep_ne _ _ _ (by decide),
        dictGet_rcBeforeStep_ne _ _ _ (by decide) (by decide), dictGet_rcAfterStep_leend]
      rfl

theorem fetch_rc_time_bounds_witness :
    dictGet (fetch_rc_params none none none none none (some dtMicro) (some dtMicro) none)
        "rcstart" = some (PyDatetime.isoformat dtMicro ++ "Z") ∧
    dictGet (fetch_rc_params none none none none none (some dtMicro) (some dtMicro) none)
        "lestart" = some (PyDatetime.isoformat dtMicro ++ "Z") ∧
    dictGet (fetch_rc_params none none none none none (some dtMicro) (some dtMicro) none)
        "rcend" = some (PyDatetime.isoformat dtMicro ++ "Z") ∧
    dictGet (fetch_rc_params none none none none none (some dtMicro) (some dtMicro) none)
        "leend" = some (PyDatetime.isoformat dtMicro ++ "Z") :=
  ⟨((fetch_rc_time_bounds none none none none none (some dtMicro) (some dtMicro) none
      dtMicro dtMicro).1 rfl).1,
   ((fetch_rc_time_bounds none none none none none (some dtMicro) (some dtMicro) none
      dtMicro dtMicro).1 rfl).2,
   ((fetch_rc_time_bounds none none none none none (some dtMicro) (some dtMicro) none
      dtMicro dtMicro).2 rfl).1,
   ((fetch_rc_time_bounds none none none none none (some dtMicro) (some dtMicro) none
      dtMicro dtMicro).2 rfl).2⟩

/-- Claim C9 counterexample: a supplied limit of 0 is falsy in Python, so
`fetch_rc` sends neither `rclimit` nor `lelimit` even though a limit was
supplied, refuting the claim at this input. -/
theorem fetch_rc_zero_limit_counterexample :
    ¬ (dictGet (fetch_rc_params (some 0) none none none none none none none) "rclimit" =
         some "0" ∧
       dictGet (fetch_rc_params (some 0) none none none none none none none) "lelimit" =
         some "0") := by
  decide

/-- Claim C9 (amended): when a nonzero limit is supplied to `fetch_rc`,
the request carries both `rclimit` and `lelimit` set to that same value;
when the limit is absent or zero, neither parameter is sent. -/
theorem fetch_rc_limit_params (limit : Option Nat)
    (types show_ rcprops leprops : Option (List String))
    (before after : Option PyDatetime) (namespaces : Option (List Int)) (n : Nat) :
    (limit = some n → n ≠ 0 →
      dictGet (fetch_rc_params limit types show_ rcprops leprops before after namespaces)
          "rclimit" = some (toString n) ∧
      dictGet (fetch_rc_params limit types show_ rcprops leprops before after namespaces)
          "lelimit" = some (toString n)) ∧
    (limit = none ∨ limit = some 0 →
      dictGet (fetch_rc_params limit types show_ rcprops leprops before after namespaces)
          "rclimit" = none ∧
      dictGet (fetch_rc_params limit types show_ rcprops leprops before after namespaces)
          "lelimit" = none) := by
  have frame : ∀ k, k ≠ "namespaces" → k ≠ "rcstart" → k ≠ "lestart" → k ≠ "rcend" →
      k ≠ "leend" → k ≠ "leprop" → k ≠ "rcprop" → k ≠ "rcshow" → k ≠ "rctype" →
      dictGet (fetch_rc_params limit types show_ rcprops leprops before after namespaces) k =
        dictGet (rcLimitStep limit
          [("action", "query"), ("list", "recentchanges|logevents"), ("format", "json")]) k := by
    intro k h1 h2 h3 h4 h5 h6 h7 h8 h9
    simp only [fetch_rc_params]
    rw [dictGet_rcNamespacesStep_ne _ _ _ h1, dictGet_rcBeforeStep_ne _ _ _ h2 h3,
      dictGet_rcAfterStep_ne _ _ _ h4 h5, dictGet_rcJoinStep_ne _ _ _ _ h6,
      dictGet_rcJoinStep_ne _ _ _ _ h7, dictGet_rcJoinStep_ne _ _ _ _ h8,
      dictGet_rcJoinStep_ne _ _ _ _ h9]
  constructor
  · rintro rfl hn
    constructor
    · rw [frame "rclimit" (by decide) (by decide) (by decide) (by decide) (by decide)
        (by decide) (by decide) (by decide) (by decide)]
      simp only [rcLimitStep, hn, ne_eq, not_false_iff, if_true]
      rw [dictGet_dictSet_ne _ _ _ _ (by decide), dictGet_dictSet_self]
    · rw [frame "lelimit" (by decide) (by decide) (by decide) (by decide) (by decide)
        (by decide) (by decide) (by decide) (by decide)]
      simp only [rcLimitStep, hn, ne_eq, not_false_iff, if_true]
      rw [dictGet_dictSet_self]
  · rintro (rfl | rfl)
    · constructor
      · rw [frame "rclimit" (by decide) (by decide) (by decide) (by decide) (by decide)
          (by decide) (by decide) (by decide) (by decide)]
        decide
      · rw [frame "lelimit" (by decide) (by decide) (by decide) (by decide) (by decide)
          (by decide) (by decide) (by decide) (by decide)]
        decide
    · constructor
      · rw [frame "rclimit" (by decide) (by decide) (by decide) (by decide) (by decide)
          (by decide) (by decide) (by decide) (by decide)]
        decide
      · rw [frame "lelimit" (by decide) (by decide) (by decide) (by decide) (by decide)
          (by decide) (by decide) (by decide) (by decide)]
        decide

theorem fetch_rc_limit_params_witness :
    dictGet (fetch_rc_params (some 5) none none none none none none none) "rclimit" =
      some (toString 5) ∧
    dictGet (fetch_rc_params (some 5) none none none none none none none) "lelimit" =
      some (toString 5) ∧
    dictGet (fetch_rc_params none none none none none none none none) "rclimit" = none :=
  ⟨((fetch_rc_limit_params (some 5) none none none none none none none 5).1 rfl
      (by decide)).1,
   ((fetch_rc_limit_params (some 5) none none none none none none none 5).1 rfl
      (by decide)).2,
   ((fetch_rc_limit_params none none none none none none none none 0).2 (Or.inl rfl)).1⟩

/-- Claim C4: the posts-API timestamp encoder is `isoformat()[:-3] + "Z"`.
When the microsecond field is nonzero this is exactly millisecond
truncation, but when it is zero `isoformat()` prints no fractional part
at all and the slice chops the seconds field instead, so the encoded
value for `2023-01-01T00:00:00` is the malformed `2023-01-01T00:00Z`
rather than any millisecond-truncated ISO form; the code contradicts its
own comment about merely removing six-digit fractions. -/
theorem posts_timestamp_zero_microseconds :
    postsTimestamp ⟨2023, 1, 1, 0, 0, 0, 123456⟩ = "2023-01-01T00:00:00.123Z" ∧
    postsTimestamp ⟨2023, 1, 1, 0, 0, 0, 0⟩ = "2023-01-01T00:00Z" ∧
    PyDatetime.isoformat ⟨2023, 1, 1, 0, 0, 0, 0⟩ ++ "Z" = "2023-01-01T00:00:00Z" ∧
    postsTimestamp ⟨2023, 1, 1, 0, 0, 0, 0⟩ ≠ "2023-01-01T00:00:00Z" ∧
    postsTimestamp ⟨2023, 1, 1, 0, 0, 0, 0⟩ ≠ "2023-01-01T00:00:00.000Z" ∧
    dictGet (posts_params none (some ⟨2023, 1, 1, 0, 0, 0, 0⟩) none) "until" =
      some "2023-01-01T00:00Z" := by
  refine ⟨?_, ?_, ?_, ?_, ?_, ?_⟩ <;> decide

/-- Claim C1: the single-container branch of `fetch_posts` executes
`params["containerType"] = params[0]`, and `params` is the parameter dict
(whose keys are strings), so the subscript raises `KeyError` before any
request is issued: no call with `containerType` set to the container ever
happens, for any single-container input. -/
theorem fetch_posts_single_container_key_error (net : Net) (wikiUrl wikiId : String)
    (limit : Option Nat) (containers : List String) (before after : Option PyDatetime)
    (h : containers.length = 1) :
    fetch_posts net wikiUrl wikiId limit containers before after =
      .error PyErr.keyError := by
  simp [fetch_posts, h]

theorem fetch_posts_single_container_key_error_witness :
    fetch_posts trivialNet "https://w.example" "42" none ["FORUM"] none none =
      .error PyErr.keyError :=
  fetch_posts_single_container_key_error trivialNet "https://w.example" "42" none
    ["FORUM"] none none rfl

/-- Claim C3: for a containers list whose length is neither 1 nor 2 (in
particular the default three-container set), `fetch_posts` issues exactly
one request, to the nirvana endpoint, with `controller=DiscussionPost`,
`method=getPosts` and no `containerType` parameter; there is no
per-container fan-out. -/
theorem fetch_posts_full_set_single_nirvana_call (net : Net) (wikiUrl wikiId : String)
    (limit : Option Nat) (containers : List String) (before after : Option PyDatetime)
    (hu : wikiUrl ≠ "") (h1 : containers.length ≠ 1) (h2 : containers.length ≠ 2) :
    fetch_posts net wikiUrl wikiId limit containers before after =
      .ok ([Call.nirvana wikiUrl (nirvanaPostsParams limit before after)],
           net (Call.nirvana wikiUrl (nirvanaPostsParams limit before after))) ∧
    dictGet (nirvanaPostsParams limit before after) "containerType" = none ∧
    dictGet (nirvanaPostsParams limit before after) "controller" = some "DiscussionPost" ∧
    dictGet (nirvanaPostsParams limit before after) "method" = some "getPosts" := by
  refine ⟨?_, ?_, ?_, ?_⟩
  · simp [fetch_posts, h1, h2, query_nirvana, hu, nirvanaPostsParams]
  · rw [nirvanaPostsParams, dictGet_dictSet_ne _ _ _ _ (by decide),
      dictGet_cons_ne _ _ _ _ (by decide), dictGet_cons_ne _ _ _ _ (by decide),
      dictGet_posts_params_ne _ _ _ _ (by decide) (by decide) (by decide)]
  · rw [nirvanaPostsParams, dictGet_dictSet_ne _ _ _ _ (by decide), dictGet_cons_self]
  · rw [nirvanaPostsParams, dictGet_dictSet_ne _ _ _ _ (by decide),
      dictGet_cons_ne _ _ _ _ (by decide), dictGet_cons_self]

theorem fetch_posts_full_set_single_nirvana_call_witness :
    fetch_posts trivialNet "https://w.example" "42" none
        ["ARTICLE_COMMENT", "FORUM", "WALL"] none none =
      .ok ([Call.nirvana "https://w.example" (nirvanaPostsParams none none none)],
           trivialNet (Call.nirvana "https://w.example" (nirvanaPostsParams none none none))) ∧
    dictGet (nirvanaPostsParams none none none) "containerType" = none ∧
    dictGet (nirvanaPostsParams none none none) "controller" = some "DiscussionPost" ∧
    dictGet (nirvanaPostsParams none none none) "method" = some "getPosts" :=
  fetch_posts_full_set_single_nirvana_call trivialNet "https://w.example" "42" none
    ["ARTICLE_COMMENT", "FORUM", "WALL"] none none (by decide) (by decide) (by decide)

/-- Claim C2 counterexample: with two containers the source ends in
`return data`, where `data` is the two-element gathered response list,
so the value returned is that list — not the first container's response
object itself, as the claim states. -/
theorem fetch_posts_two_container_return_counterexample :
    fetch_posts twoContainerNet "https://w.example" "42" none ["FORUM", "WALL"] none none =
      .ok ([Call.service "discussion" "42" "posts" [("containerType", "FORUM")],
            Call.service "discussion" "42" "posts" [("containerType", "WALL")]],
           JVal.arr [mergedForum, respWall]) ∧
    JVal.arr [mergedForum, respWall] ≠ mergedForum := by
  constructor
  · rfl
  · intro h
    rw [mergedForum] at h
    exact JVal.noConfusion h

/-- Claim C2 (amended): with exactly two containers, `fetch_posts` issues
one concurrent `services("discussion", ..., "posts")` request per
container with that container as `containerType`; the first response's
post list is extended to the first container's posts followed by the
second container's posts, in that order with no re-sorting, and the
function returns the two-element response list whose first element is
that merged first response and whose second element is the second
response unchanged. -/
theorem fetch_posts_two_container_merge (net : Net) (wikiUrl wikiId : String)
    (limit : Option Nat) (c0 c1 : String) (before after : Option PyDatetime)
    (d0f d1f e0 e1 : List (String × JVal)) (xs ys : List JVal)
    (h0 : net (Call.service "discussion" wikiId "posts"
            (("containerType", c0) :: posts_params limit before after)) = JVal.obj d0f)
    (h1 : net (Call.service "discussion" wikiId "posts"
            (("containerType", c1) :: posts_params limit before after)) = JVal.obj d1f)
    (hE0 : jLookup d0f "_embedded" = some (JVal.obj e0))
    (hP0 : jLookup e0 "doc:posts" = some (JVal.arr xs))
    (hE1 : jLookup d1f "_embedded" = some (JVal.obj e1))
    (hP1 : jLookup e1 "doc:posts" = some (JVal.arr ys)) :
    fetch_posts net wikiUrl wikiId limit [c0, c1] before after =
      .ok ([Call.service "discussion" wikiId "posts"
              (("containerType", c0) :: posts_params limit before after),
            Call.service "discussion" wikiId "posts"
              (("containerType", c1) :: posts_params limit before after)],
           JVal.arr
             [JVal.obj (jSetList d0f "_embedded"
                (JVal.obj (jSetList e0 "doc:posts" (JVal.arr (xs ++ ys))))),
              JVal.obj d1f]) := by
  simp [fetch_posts, services, jSub, jSetField, h0, h1, hE0, hP0, hE1, hP1]

theorem fetch_posts_two_container_merge_witness :
    fetch_posts twoContainerNet "https://w.example" "42" none ["FORUM", "WALL"] none none =
      .ok ([Call.service "discussion" "42" "posts"
              (("containerType", "FORUM") :: posts_params none none none),
            Call.service "discussion" "42" "posts"
              (("containerType", "WALL") :: posts_params none none none)],
           JVal.arr
             [JVal.obj (jSetList [("id", .str "A"),
                  ("_embedded", .obj [("doc:posts", .arr [.str "f1", .str "f2"])])]
                "_embedded"
                (JVal.obj (jSetList [("doc:posts", .arr [.str "f1", .str "f2"])] "doc:posts"
                  (JVal.arr ([JVal.str "f1", JVal.str "f2"] ++ [JVal.str "w1"]))))),
              JVal.obj [("_embedded", .obj [("doc:posts", .arr [.str "w1"])])]]) :=
  fetch_posts_two_container_merge twoContainerNet "https://w.example" "42" none
    "FORUM" "WALL" none none
    [("id", .str "A"), ("_embedded", .obj [("doc:posts", .arr [.str "f1", .str "f2"])])]
    [("_embedded", .obj [("doc:posts", .arr [.str "w1"])])]
    [("doc:posts", .arr [.str "f1", .str "f2"])]
    [("doc:posts", .arr [.str "w1"])]
    [JVal.str "f1", JVal.str "f2"] [JVal.str "w1"]
    rfl rfl rfl rfl rfl rfl

theorem string_append_assoc (a b c : String) : a ++ b ++ c = a ++ (b ++ c) := by
  cases a; cases b; cases c
  show String.mk _ = String.mk _
  simp

theorem noSpace_url_suffix (url : String) (ps : Params) (h : noSpace url) :
    noSpace (if ps.isEmpty then url else url ++ "?" ++ urlencode ps) := by
  cases ps with
  | nil => exact h
  | cons q qs =>
      rw [if_neg (by simp)]
      exact noSpace_append _ _ (noSpace_append _ _ h (by decide)) (noSpace_urlencode _)

/-- Claim C8 counterexample: an empty namespace string is supplied (so a
namespace is present) yet `if namespace:` treats it as absent and no
namespace-colon form is prepended, refuting the claim at this input. -/
theorem url_to_empty_namespace_counterexample :
    url_to "https://w.example" "Page" (some "") [] = "https://w.example/wiki/Page" ∧
    url_to "https://w.example" "Page" (some "") [] ≠ "https://w.example/wiki/:Page" := by
  constructor
  · rfl
  · decide

/-- Claim C8 (amended): `url_to` replaces every space with an underscore
in the page and in the namespace, prepends the namespace and a colon to
the page when a non-empty namespace is supplied (an empty namespace
string behaves like an absent one), appends a question mark plus the
encoded query string exactly when params is non-empty, and, whenever the
wiki's base url has no literal space, the resulting URL contains no
literal space character. -/
theorem url_to_props (w page : String) (ns : Option String) (ps : Params) :
    (noSpace w → noSpace (url_to w page ns ps)) ∧
    (∀ s, ns = some s → s ≠ "" →
      url_to w page ns ps =
        (w ++ "/wiki/" ++ pyReplaceChar s ' ' '_' ++ ":" ++ pyReplaceChar page ' ' '_') ++
          (if ps.isEmpty then "" else "?" ++ urlencode ps)) ∧
    ((ns = none ∨ ns = some "") →
      url_to w page ns ps =
        (w ++ "/wiki/" ++ pyReplaceChar page ' ' '_') ++
          (if ps.isEmpty then "" else "?" ++ urlencode ps)) := by
  refine ⟨?_, ?_, ?_⟩
  · intro hw
    cases ns with
    | none =>
        simp only [url_to]
        exact noSpace_url_suffix _ _
          (noSpace_append _ _ (noSpace_append _ _ hw (by decide)) (noSpace_pyReplaceChar _))
    | some s =>
        simp only [url_to]
        by_cases hs : s = ""
        · rw [if_pos hs]
          exact noSpace_url_suffix _ _
            (noSpace_append _ _ (noSpace_append _ _ hw (by decide))
              (noSpace_pyReplaceChar _))
        · rw [if_neg hs]
          exact noSpace_url_suffix _ _
            (noSpace_append _ _
              (noSpace_append _ _
                (noSpace_append _ _ (noSpace_append _ _ hw (by decide))
                  (noSpace_pyReplaceChar _))
                (by decide))
              (noSpace_pyReplaceChar _))
  · rintro s rfl hs
    simp only [url_to, if_neg hs]
    cases ps with
    | nil => simp [string_append_empty_right]
    | cons q qs => simp [string_append_assoc]
  · rintro (rfl | rfl)
    · cases ps with
      | nil => simp [url_to, string_append_empty_right]
      | cons q qs => simp [url_to, string_append_assoc]
    · cases ps with
      | nil => simp [url_to, string_append_empty_right]
      | cons q qs => simp [url_to, string_append_assoc]

theorem url_to_props_witness :
    noSpace (url_to "https://w.example" "Main Page" (some "Help desk") [("uselang", "en us")]) ∧
    url_to "https://w.example" "Main Page" (some "Help desk") [("uselang", "en us")] =
      ("https://w.example" ++ "/wiki/" ++ pyReplaceChar "Help desk" ' ' '_' ++ ":" ++
          pyReplaceChar "Main Page" ' ' '_') ++
        (if ([("uselang", "en us")] : Params).isEmpty then ""
         else "?" ++ urlencode [("uselang", "en us")]) :=
  ⟨(url_to_props "https://w.example" "Main Page" (some "Help desk")
      [("uselang", "en us")]).1 (by decide),
   (url_to_props "https://w.example" "Main Page" (some "Help desk")
      [("uselang", "en us")]).2.1 "Help desk" rfl (by decide)⟩
